import Mathlib

/-!
# SQL similarity evaluation engine: shallow embedding of `src/eval.py`

The repository evaluates machine-generated SQL queries against reference
queries.  The core (`src/eval.py`) parses, normalizes, diffs and tokenizes SQL
through the third-party `sqlglot` library, which the specification treats as a
pluggable "SQL front-end" capability behind an interface with operations
`parse`, `normalize`, `diff`, `tokenize`.  We embed `eval.py` faithfully,
parameterized over such a front-end (`Frontend` below), and supply a concrete
model front-end (modelled from the spec) for the properties that constrain the
front-end itself and for concrete witnesses.

Python floats are modelled exactly: the AST distance (a quotient of integers)
by `ℚ`, the cosine similarity (which involves `sqrt`) by `ℝ`.  Python
exceptions are modelled by `Except`.
-/

/-- A SQL abstract syntax tree: every node has a kind and a list of typed
children (`sqlglot.Expression`). -/
inductive Expression where
  | node (kind : String) (children : List Expression)

/-- Induction over an expression tree: a property holds of every node once it
holds of all children. -/
theorem Expression.recNodes {P : Expression → Prop}
    (h : ∀ k cs, (∀ t ∈ cs, P t) → P (Expression.node k cs)) (t : Expression) : P t :=
  @Expression.rec P (fun l => ∀ x ∈ l, P x)
    (fun k cs ih => h k cs ih)
    (fun x hx => absurd hx (List.not_mem_nil x))
    (fun _ _ ihh iht x hx => by
      rcases List.mem_cons.mp hx with h1 | h2
      · exact h1 ▸ ihh
      · exact iht x h2)
    t

mutual
/-- Boolean equality of expression trees. -/
def Expression.beq : Expression → Expression → Bool
  | .node k1 c1, .node k2 c2 => k1 == k2 && Expression.beqList c1 c2

/-- Boolean equality of lists of expression trees. -/
def Expression.beqList : List Expression → List Expression → Bool
  | [], [] => true
  | t :: ts, u :: us => Expression.beq t u && Expression.beqList ts us
  | _, _ => false
end

theorem Expression.beqList_iff {l1 : List Expression}
    (ih : ∀ t ∈ l1, ∀ u, Expression.beq t u = true ↔ t = u) :
    ∀ l2, Expression.beqList l1 l2 = true ↔ l1 = l2 := by
  induction l1 with
  | nil => intro l2; cases l2 <;> simp [Expression.beqList]
  | cons t ts ihl =>
    intro l2
    cases l2 with
    | nil => simp [Expression.beqList]
    | cons u us =>
      rw [Expression.beqList, Bool.and_eq_true, ih t (List.mem_cons_self t ts) u,
        ihl (fun x hx => ih x (List.mem_cons_of_mem t hx))]
      simp

theorem Expression.beq_iff (a : Expression) :
    ∀ b, Expression.beq a b = true ↔ a = b := by
  induction a using Expression.recNodes with
  | h k cs ih =>
    intro b
    cases b with
    | node k2 c2 =>
      rw [Expression.beq, Bool.and_eq_true, beq_iff_eq,
        Expression.beqList_iff (fun t ht u => ih t ht u) c2]
      simp

instance : DecidableEq Expression :=
  fun a b => decidable_of_iff _ (Expression.beq_iff a b)

mutual
/-- `Expression.walk()`: the node itself followed by the walk of every child,
as a flat list.  `eval.py` only uses its length, which is independent of the
traversal order (sqlglot walks breadth-first by default). -/
def Expression.walk : Expression → List Expression
  | .node k cs => .node k cs :: Expression.walkList cs

/-- Walk of a list of sibling subtrees, concatenated. -/
def Expression.walkList : List Expression → List Expression
  | [] => []
  | t :: ts => t.walk ++ Expression.walkList ts
end

mutual
/-- Structural node count: one for the node plus the counts of the children.
Used only to state that `count_nodes` counts every node of the tree. -/
def Expression.size : Expression → Nat
  | .node _ cs => 1 + Expression.sizeList cs

/-- Total structural node count of a list of subtrees. -/
def Expression.sizeList : List Expression → Nat
  | [] => 0
  | t :: ts => t.size + Expression.sizeList ts
end

/-- An edit operation of the tree-diff edit script (`sqlglot.diff`):
insert, remove, move or update of a node.  `eval.py` calls `diff` with
`delta_only=True`, so "keep" entries are excluded from the script. -/
inductive Edit where
  | insert (t : Expression)
  | remove (t : Expression)
  | move (t : Expression)
  | update (a b : Expression)
deriving DecidableEq

/-- The SQL front-end interface of the spec (§9): `parse`, `normalize`,
`diff`, `tokenize`, plus printing a tree back to SQL text (`Expression.sql()`).
`eval.py` binds it to `sqlglot`; the evaluation logic is agnostic to the
concrete grammar implementation.  `parse` returns `none` on a parse failure
(Python: `parse_one` raises `ParseError`). -/
structure Frontend where
  parse : String → Option Expression
  normalizeTree : Expression → Expression
  toSql : Expression → String
  diffTrees : Expression → Expression → List Edit
  tokenize : String → List String

/-- The errors surfaced by the engine (spec §7): `ParseError`,
`QuestionMismatchError` (Python: `ValueError("Questions don't match")`) and
`NoResultsError` (Python: `ZeroDivisionError` from `sum(...) / len(results)`). -/
inductive EvalError where
  | parseError
  | questionMismatch
  | noResults
deriving DecidableEq, Repr

/-- `parse_one(sql)` as a fallible operation. -/
def parseOne (F : Frontend) (sql : String) : Except EvalError Expression :=
  match F.parse sql with
  | some t => .ok t
  | none => .error .parseError

/-- `normalize_sql`: parse, normalize the tree, print back to SQL text. -/
def normalize_sql (F : Frontend) (sql : String) : Except EvalError String :=
  (parseOne F sql).map fun tree => F.toSql (F.normalizeTree tree)

/-- `count_nodes`: the number of nodes in a full walk of the ast. -/
def count_nodes (ast : Expression) : Nat := ast.walk.length

/-- The normalized edit distance of two already-parsed trees:
`len(edits) / total_nodes if total_nodes > 0 else 0`. -/
def ast_distance_trees (F : Frontend) (t1 t2 : Expression) : ℚ :=
  let edits := F.diffTrees t1 t2
  let total_nodes := count_nodes t1 + count_nodes t2
  if 0 < total_nodes then (edits.length : ℚ) / (total_nodes : ℚ) else 0

/-- `ast_distance`: parse the two SQL strings and normalize the edit-script
length of their diff by the total node count. -/
def ast_distance (F : Frontend) (sql_1 sql_2 : String) : Except EvalError ℚ := do
  let sql_1_ast ← parseOne F sql_1
  let sql_2_ast ← parseOne F sql_2
  pure (ast_distance_trees F sql_1_ast sql_2_ast)

/-- `token.text.lower()`: lower-case every character of the token's text. -/
def lowerString (s : String) : String := String.mk (s.toList.map Char.toLower)

/-- `tokenize_sql`: tokenize the SQL string and lower-case every token's text.
The Python `Counter` of the texts is modelled by the list itself, queried
through `List.count`. -/
def tokenize_sql (F : Frontend) (sql : String) : List String :=
  (F.tokenize sql).map (fun token => lowerString token)

/-- `cosine_similarity` of two SQL strings over their token-frequency
multisets: `0.0` when either multiset is empty, otherwise the dot product
over the shared keys divided by the product of the magnitudes. -/
noncomputable def cosine_similarity (F : Frontend) (sql_1 sql_2 : String) : ℝ :=
  let tokens_1 := tokenize_sql F sql_1
  let tokens_2 := tokenize_sql F sql_2
  if tokens_1.toFinset.card = 0 ∨ tokens_2.toFinset.card = 0 then 0
  else
    let intersection := tokens_1.toFinset ∩ tokens_2.toFinset
    let dot_product : ℕ := ∑ token ∈ intersection, tokens_1.count token * tokens_2.count token
    let magnitude1 : ℝ := Real.sqrt ((∑ token ∈ tokens_1.toFinset, (tokens_1.count token) ^ 2 : ℕ))
    let magnitude2 : ℝ := Real.sqrt ((∑ token ∈ tokens_2.toFinset, (tokens_2.count token) ^ 2 : ℕ))
    (dot_product : ℝ) / (magnitude1 * magnitude2)

theorem Expression.walkList_length {l : List Expression}
    (ih : ∀ t ∈ l, t.walk.length = t.size) :
    (Expression.walkList l).length = Expression.sizeList l := by
  induction l with
  | nil => simp [Expression.walkList, Expression.sizeList]
  | cons t ts ihl =>
    rw [Expression.walkList, Expression.sizeList, List.length_append,
      ih t (List.mem_cons_self t ts), ihl (fun x hx => ih x (List.mem_cons_of_mem t hx))]

/-- The full walk of a tree visits each node exactly once: its length is the
structural node count. -/
theorem Expression.walk_length (t : Expression) : t.walk.length = t.size := by
  induction t using Expression.recNodes with
  | h k cs ih =>
    rw [Expression.walk, Expression.size, List.length_cons,
      Expression.walkList_length ih, Nat.add_comm]

/-- Every tree has at least one node (the root), so the total node count of
two parsed trees is never zero. -/
theorem Expression.size_pos (t : Expression) : 0 < t.size := by
  cases t with
  | node k cs => rw [Expression.size]; exact Nat.lt_of_lt_of_le Nat.zero_lt_one (Nat.le_add_right 1 _)

theorem count_nodes_eq_size (t : Expression) : count_nodes t = t.size :=
  Expression.walk_length t

theorem count_nodes_pos (t : Expression) : 0 < count_nodes t :=
  (count_nodes_eq_size t) ▸ Expression.size_pos t

/-- A generated-query record: `{ question, generated_query }`. -/
structure GenRecord where
  question : String
  generated_query : String
deriving DecidableEq, Repr

/-- A reference record: `{ question, query }`. -/
structure RefRecord where
  question : String
  query : String
deriving DecidableEq, Repr

/-- An evaluation result:
`{ question, generated_query, reference_query, ast_distance, token_cosine }`. -/
structure EvalResult where
  question : String
  generated_query : String
  reference_query : String
  ast_distance : ℚ
  token_cosine : ℝ

/-- `evaluate_query`: raise on a question mismatch, short-circuit an empty
generated query to `ast_distance = 1, token_cosine = 0`, otherwise normalize
both queries and compute both metrics on the normalized SQL text. -/
noncomputable def evaluate_query (F : Frontend) (gen_query : GenRecord)
    (ref_example : RefRecord) : Except EvalError EvalResult :=
  if gen_query.question ≠ ref_example.question then .error .questionMismatch
  else if gen_query.generated_query = "" then
    .ok { question := gen_query.question
          generated_query := gen_query.generated_query
          reference_query := ref_example.query
          ast_distance := 1
          token_cosine := 0 }
  else do
    let gen_normed ← normalize_sql F gen_query.generated_query
    let ref_normed ← normalize_sql F ref_example.query
    let d ← ast_distance F gen_normed ref_normed
    pure { question := gen_query.question
           generated_query := gen_query.generated_query
           reference_query := ref_example.query
           ast_distance := d
           token_cosine := cosine_similarity F gen_normed ref_normed }

/-- The evaluation loop of `main`:
`for gen_query, ref_example in zip(generated_queries, reference_examples)`,
appending `evaluate_query(gen_query, ref_example)` to `results`; the first
raised error aborts the loop. -/
noncomputable def evaluate_batch (F : Frontend) :
    List GenRecord → List RefRecord → Except EvalError (List EvalResult)
  | gen_query :: gens, ref_example :: refs => do
    let r ← evaluate_query F gen_query ref_example
    let rs ← evaluate_batch F gens refs
    pure (r :: rs)
  | _, _ => pure []

/-- The aggregate metrics record: `{ ast_distance_mean, token_cosine_mean }`. -/
structure Metrics where
  ast_distance_mean : ℚ
  token_cosine_mean : ℝ

/-- The tracked-metrics block of `main`:
`sum(result[metric] for result in results) / len(results)` for both metrics.
Python raises `ZeroDivisionError` when `results` is empty (the spec's
`NoResultsError`). -/
noncomputable def compute_metrics (results : List EvalResult) : Except EvalError Metrics :=
  if results.length = 0 then .error .noResults
  else .ok
    { ast_distance_mean :=
        (results.map (fun result => result.ast_distance)).sum / (results.length : ℚ)
      token_cosine_mean :=
        (results.map (fun result => result.token_cosine)).sum / (results.length : ℝ) }

/-- The batch pipeline of `main`: evaluate every positional pair, then compute
the aggregate metrics over the collected results. -/
noncomputable def run_batch (F : Frontend) (gens : List GenRecord) (refs : List RefRecord) :
    Except EvalError (List EvalResult × Metrics) := do
  let results ← evaluate_batch F gens refs
  let metrics ← compute_metrics results
  pure (results, metrics)

/-!
## A concrete model front-end

The repository binds the front-end to the `sqlglot` library, whose code is not
part of this repository.  The definitions below model the missing front-end
from the spec, on a small fragment of SQL (single-table `SELECT` statements
with an optional table alias), and are used for the properties that constrain
the front-end itself (alias invariance, diff symmetry) and for concrete
witnesses.
-/

/-- Split a list of characters at a separator character; `acc` is the current
word, reversed. -/
def splitCharsAux (sep : Char) : List Char → List Char → List (List Char)
  | acc, [] => [acc.reverse]
  | acc, c :: rest =>
    if c = sep then acc.reverse :: splitCharsAux sep [] rest
    else splitCharsAux sep (c :: acc) rest

/-- Split a string at a separator character. -/
def splitChars (sep : Char) (s : String) : List String :=
  (splitCharsAux sep [] s.toList).map (fun cs => String.mk cs)

/-- Modelled from the spec: parse a column reference, either an unqualified
name or `qualifier.name`. -/
def modelParseColumn (col : String) : Option Expression :=
  match splitChars '.' col with
  | [name] => some (.node "column" [.node name []])
  | [qual, name] => some (.node "column" [.node name [], .node qual []])
  | _ => none

/-- Modelled from the spec: a dialect-aware SQL grammar is out of reach, so the
model parses the fragment `SELECT <column> FROM <table> [<alias>]` into an
AST; anything else is a parse failure. -/
def modelParse (sql : String) : Option Expression :=
  match splitChars ' ' sql with
  | ["SELECT", col, "FROM", tbl] =>
    (modelParseColumn col).map fun c =>
      .node "select" [c, .node "from" [.node "table" [.node tbl []]]]
  | ["SELECT", col, "FROM", tbl, al] =>
    (modelParseColumn col).map fun c =>
      .node "select"
        [c, .node "from" [.node "table" [.node tbl []], .node "alias" [.node al []]]]
  | _ => none

/-- Modelled from the spec: the normalization pass rewrites column references
to remove the effect of table aliasing — a column qualified by the table's
alias is requalified by the table name itself and the alias is dropped. -/
def modelNormalize (t : Expression) : Expression :=
  match t with
  | .node "select" [.node "column" colkids,
      .node "from" [.node "table" [.node tbl []], .node "alias" [.node al []]]] =>
    let newkids :=
      match colkids with
      | [.node name [], .node q []] =>
        if q = al then [Expression.node name [], Expression.node tbl []]
        else [Expression.node name [], Expression.node q []]
      | other => other
    .node "select" [.node "column" newkids, .node "from" [.node "table" [.node tbl []]]]
  | other => other

/-- Print a column reference of the model fragment back to SQL text. -/
def modelPrintColumn : List Expression → String
  | [.node name []] => name
  | [.node name [], .node q []] => q ++ "." ++ name
  | _ => ""

/-- Modelled from the spec: print a tree of the model fragment back to SQL
text (`Expression.sql()`), inverse to `modelParse` on the fragment. -/
def modelToSql : Expression → String
  | .node "select" [.node "column" colkids, .node "from" [.node "table" [.node tbl []]]] =>
    "SELECT " ++ modelPrintColumn colkids ++ " FROM " ++ tbl
  | .node "select" [.node "column" colkids,
      .node "from" [.node "table" [.node tbl []], .node "alias" [.node al []]]] =>
    "SELECT " ++ modelPrintColumn colkids ++ " FROM " ++ tbl ++ " " ++ al
  | _ => ""

mutual
/-- Modelled from the spec: a two-phase tree-diff in the Change-Distiller
family — roots are matched against each other and children positionally; a
matched pair with different kinds contributes one update, an unmatched subtree
contributes one insert (resp. remove) per node.  Identical trees produce an
empty edit script and the script length is symmetric by construction. -/
def modelDiff : Expression → Expression → List Edit
  | .node k1 c1, .node k2 c2 =>
    (if k1 = k2 then [] else [Edit.update (.node k1 c1) (.node k2 c2)])
      ++ modelDiffList c1 c2

/-- Diff of two sibling lists, matched positionally. -/
def modelDiffList : List Expression → List Expression → List Edit
  | [], [] => []
  | [], u :: us => (Expression.walkList (u :: us)).map Edit.insert
  | t :: ts, [] => (Expression.walkList (t :: ts)).map Edit.remove
  | t :: ts, u :: us => modelDiff t u ++ modelDiffList ts us
end

/-- Modelled from the spec: the tokenizer splits the statement into a flat
sequence of lexical tokens; in the model fragment, words are separated by
spaces and a dotted reference splits into name, dot and qualifier tokens. -/
def modelTokenize (sql : String) : List String :=
  ((splitChars ' ' sql).map fun w =>
    match splitChars '.' w with
    | [x] => [x]
    | xs => xs.intersperse ".").flatten

/-- The model front-end, assembling the modelled operations. -/
def specFrontend : Frontend :=
  { parse := modelParse
    normalizeTree := modelNormalize
    toSql := modelToSql
    diffTrees := modelDiff
    tokenize := modelTokenize }

theorem modelDiffList_self {l : List Expression} (ih : ∀ t ∈ l, modelDiff t t = []) :
    modelDiffList l l = [] := by
  induction l with
  | nil => rw [modelDiffList]
  | cons t ts ihl =>
    rw [modelDiffList, ih t (List.mem_cons_self t ts),
      ihl (fun x hx => ih x (List.mem_cons_of_mem t hx)), List.nil_append]

/-- Identical trees are fully matched, so the edit script of the model diff is
empty. -/
theorem modelDiff_self (t : Expression) : modelDiff t t = [] := by
  induction t using Expression.recNodes with
  | h k cs ih => rw [modelDiff, if_pos rfl, List.nil_append, modelDiffList_self ih]

theorem modelDiffList_length_symm {l1 : List Expression}
    (ih : ∀ t ∈ l1, ∀ u, (modelDiff t u).length = (modelDiff u t).length) :
    ∀ l2, (modelDiffList l1 l2).length = (modelDiffList l2 l1).length := by
  induction l1 with
  | nil => intro l2; cases l2 <;> simp [modelDiffList]
  | cons t ts ihl =>
    intro l2
    cases l2 with
    | nil => simp [modelDiffList]
    | cons u us =>
      rw [modelDiffList, modelDiffList, List.length_append, List.length_append,
        ih t (List.mem_cons_self t ts) u,
        ihl (fun x hx => ih x (List.mem_cons_of_mem t hx)) us]

/-- The edit-script length of the model diff is symmetric in its arguments. -/
theorem modelDiff_length_symm (a : Expression) :
    ∀ b, (modelDiff a b).length = (modelDiff b a).length := by
  induction a using Expression.recNodes with
  | h k cs ih =>
    intro b
    cases b with
    | node k2 c2 =>
      rw [modelDiff, modelDiff, List.length_append, List.length_append,
        modelDiffList_length_symm (fun t ht u => ih t ht u) c2]
      by_cases hk : k = k2
      · rw [if_pos hk, if_pos hk.symm]
      · rw [if_neg hk, if_neg (Ne.symm hk), List.length_singleton, List.length_singleton]

/-!
## Claim theorems
-/

/-- If the diff of the two trees is the empty edit script, the normalized
distance is `0` (either branch of the guard yields `0`). -/
theorem ast_distance_trees_of_diff_nil {F : Frontend} {t1 t2 : Expression}
    (h : F.diffTrees t1 t2 = []) : ast_distance_trees F t1 t2 = 0 := by
  unfold ast_distance_trees
  rw [h]
  simp

/-- C1: for records whose questions match and whose `generated_query` is the
empty string, `evaluate_query` short-circuits to the result with
`ast_distance = 1` and `token_cosine = 0`; the result does not depend on the
front-end, so the canonicalizer is never invoked. -/
theorem evaluate_query_degenerate (F G : Frontend) (gen_query : GenRecord)
    (ref_example : RefRecord) (hq : gen_query.question = ref_example.question)
    (he : gen_query.generated_query = "") :
    evaluate_query F gen_query ref_example =
      .ok { question := gen_query.question
            generated_query := gen_query.generated_query
            reference_query := ref_example.query
            ast_distance := 1
            token_cosine := 0 } ∧
    evaluate_query F gen_query ref_example = evaluate_query G gen_query ref_example := by
  have h : ∀ H : Frontend, evaluate_query H gen_query ref_example =
      .ok { question := gen_query.question
            generated_query := gen_query.generated_query
            reference_query := ref_example.query
            ast_distance := 1
            token_cosine := 0 } := by
    intro H
    unfold evaluate_query
    rw [if_neg (by simp [hq]), if_pos he]
  exact ⟨h F, (h F).trans (h G).symm⟩

/-- C1 witness: a concrete degenerate pair evaluated on the model front-end. -/
theorem evaluate_query_degenerate_witness :
    evaluate_query specFrontend ⟨"q", ""⟩ ⟨"q", "SELECT x FROM y"⟩ =
      .ok { question := "q", generated_query := "", reference_query := "SELECT x FROM y"
            ast_distance := 1, token_cosine := 0 } :=
  (evaluate_query_degenerate specFrontend specFrontend ⟨"q", ""⟩ ⟨"q", "SELECT x FROM y"⟩
    rfl rfl).1

/-- C10: the question-mismatch check precedes the degenerate-output short
circuit: mismatched questions always fail with the mismatch error, whatever
the generated query and the front-end, and any successful result (in
particular the degenerate scoring) implies the questions matched. -/
theorem evaluate_query_mismatch_precedes (F : Frontend) (gen_query : GenRecord)
    (ref_example : RefRecord) :
    (gen_query.question ≠ ref_example.question →
      evaluate_query F gen_query ref_example = .error .questionMismatch) ∧
    (∀ r, evaluate_query F gen_query ref_example = .ok r →
      gen_query.question = ref_example.question) := by
  constructor
  · intro h
    unfold evaluate_query
    rw [if_pos h]
  · intro r h
    by_contra hq
    unfold evaluate_query at h
    rw [if_pos hq] at h
    exact Except.noConfusion h

/-- C10 witness: a mismatched pair with an empty generated query fails with
the mismatch error rather than the degenerate scoring. -/
theorem evaluate_query_mismatch_precedes_witness :
    evaluate_query specFrontend ⟨"A", ""⟩ ⟨"B", "SELECT x FROM y"⟩ =
      .error .questionMismatch :=
  (evaluate_query_mismatch_precedes specFrontend ⟨"A", ""⟩ ⟨"B", "SELECT x FROM y"⟩).1
    (by decide)

/-- C8: the normalized AST distance is symmetric: the denominator is a
symmetric total node count and the edit-script length of the (modelled)
diff is symmetric by construction. -/
theorem ast_distance_trees_symm (t1 t2 : Expression) :
    ast_distance_trees specFrontend t1 t2 = ast_distance_trees specFrontend t2 t1 := by
  unfold ast_distance_trees
  show (if 0 < count_nodes t1 + count_nodes t2
      then ((modelDiff t1 t2).length : ℚ) / ((count_nodes t1 + count_nodes t2 : ℕ) : ℚ)
      else 0) =
    (if 0 < count_nodes t2 + count_nodes t1
      then ((modelDiff t2 t1).length : ℚ) / ((count_nodes t2 + count_nodes t1 : ℕ) : ℚ)
      else 0)
  rw [modelDiff_length_symm t1 t2, Nat.add_comm (count_nodes t1) (count_nodes t2)]

/-- C5: alias invariance of the canonicalization: the two queries differing
only in the use of the table alias normalize to the same canonical SQL, so
their AST distance is `0`. -/
theorem alias_invariance :
    (normalize_sql specFrontend "SELECT t.id FROM orders t").bind
      (fun gen_normed => (normalize_sql specFrontend "SELECT orders.id FROM orders").bind
        (fun ref_normed => ast_distance specFrontend gen_normed ref_normed)) =
    .ok 0 := by
  have h1 : normalize_sql specFrontend "SELECT t.id FROM orders t" =
      .ok "SELECT orders.id FROM orders" := rfl
  have h2 : normalize_sql specFrontend "SELECT orders.id FROM orders" =
      .ok "SELECT orders.id FROM orders" := rfl
  rw [h1, h2]
  show ast_distance specFrontend "SELECT orders.id FROM orders"
      "SELECT orders.id FROM orders" = .ok 0
  have hp : parseOne specFrontend "SELECT orders.id FROM orders" =
      .ok (Expression.node "select"
        [Expression.node "column" [Expression.node "id" [], Expression.node "orders" []],
         Expression.node "from" [Expression.node "table" [Expression.node "orders" []]]]) := rfl
  unfold ast_distance
  rw [hp]
  show Except.ok (ast_distance_trees specFrontend _ _) = Except.ok 0
  rw [ast_distance_trees_of_diff_nil (modelDiff_self _)]

theorem exceptBind_ok {ε α β : Type} (a : α) (f : α → Except ε β) :
    ((Except.ok a : Except ε α) >>= f) = f a := rfl

theorem exceptBind_error {ε α β : Type} (e : ε) (f : α → Except ε β) :
    ((Except.error e : Except ε α) >>= f) = .error e := rfl

/-- C2: for a non-empty generated query, `evaluate_query` fails with the
question-mismatch error exactly when the questions differ (before any parsing
or metric, for every front-end); with matching questions it propagates a parse
failure of either SQL string as a parse error, and succeeds when all parses
succeed, producing both metrics on the normalized SQL. -/
theorem evaluate_query_error_contract (F : Frontend) (gen_query : GenRecord)
    (ref_example : RefRecord) (hne : gen_query.generated_query ≠ "") :
    (gen_query.question ≠ ref_example.question →
      evaluate_query F gen_query ref_example = .error .questionMismatch) ∧
    (gen_query.question = ref_example.question →
      ((F.parse gen_query.generated_query = none ∨ F.parse ref_example.query = none) →
        evaluate_query F gen_query ref_example = .error .parseError) ∧
      (∀ t1 t2, F.parse gen_query.generated_query = some t1 →
        F.parse ref_example.query = some t2 →
        ∀ u1 u2, F.parse (F.toSql (F.normalizeTree t1)) = some u1 →
        F.parse (F.toSql (F.normalizeTree t2)) = some u2 →
        evaluate_query F gen_query ref_example =
          .ok { question := gen_query.question
                generated_query := gen_query.generated_query
                reference_query := ref_example.query
                ast_distance := ast_distance_trees F u1 u2
                token_cosine := cosine_similarity F (F.toSql (F.normalizeTree t1))
                  (F.toSql (F.normalizeTree t2)) })) := by
  refine ⟨fun h => ?_, fun hq => ⟨fun hp => ?_, fun t1 t2 h1 h2 u1 u2 h3 h4 => ?_⟩⟩
  · unfold evaluate_query
    rw [if_pos h]
  · unfold evaluate_query
    rw [if_neg (by simp [hq]), if_neg hne]
    rcases hp with hp | hp
    · have hgn : normalize_sql F gen_query.generated_query = .error .parseError := by
        simp [normalize_sql, parseOne, hp, Except.map]
      rw [hgn, exceptBind_error]
    · cases hg : F.parse gen_query.generated_query with
      | none =>
        have hgn : normalize_sql F gen_query.generated_query = .error .parseError := by
          simp [normalize_sql, parseOne, hg, Except.map]
        rw [hgn, exceptBind_error]
      | some t =>
        have hgn : normalize_sql F gen_query.generated_query =
            .ok (F.toSql (F.normalizeTree t)) := by
          simp [normalize_sql, parseOne, hg, Except.map]
        have hrn : normalize_sql F ref_example.query = .error .parseError := by
          simp [normalize_sql, parseOne, hp, Except.map]
        rw [hgn, exceptBind_ok, hrn, exceptBind_error]
  · unfold evaluate_query
    rw [if_neg (by simp [hq]), if_neg hne]
    have hgn : normalize_sql F gen_query.generated_query =
        .ok (F.toSql (F.normalizeTree t1)) := by
      simp [normalize_sql, parseOne, h1, Except.map]
    have hrn : normalize_sql F ref_example.query =
        .ok (F.toSql (F.normalizeTree t2)) := by
      simp [normalize_sql, parseOne, h2, Except.map]
    rw [hgn, exceptBind_ok, hrn, exceptBind_ok]
    have hd : ast_distance F (F.toSql (F.normalizeTree t1)) (F.toSql (F.normalizeTree t2)) =
        .ok (ast_distance_trees F u1 u2) := by
      unfold ast_distance
      rw [show parseOne F (F.toSql (F.normalizeTree t1)) = .ok u1 by simp [parseOne, h3],
        exceptBind_ok,
        show parseOne F (F.toSql (F.normalizeTree t2)) = .ok u2 by simp [parseOne, h4],
        exceptBind_ok]
      rfl
    rw [hd, exceptBind_ok]
    rfl

/-- C2 witness: a concrete fully-parseable pair on the model front-end takes
the success path of the contract. -/
theorem evaluate_query_error_contract_witness :
    evaluate_query specFrontend ⟨"q", "SELECT t.id FROM orders t"⟩
        ⟨"q", "SELECT orders.id FROM orders"⟩ =
      .ok { question := "q", generated_query := "SELECT t.id FROM orders t"
            reference_query := "SELECT orders.id FROM orders"
            ast_distance := ast_distance_trees specFrontend
              (.node "select"
                [.node "column" [.node "id" [], .node "orders" []],
                 .node "from" [.node "table" [.node "orders" []]]])
              (.node "select"
                [.node "column" [.node "id" [], .node "orders" []],
                 .node "from" [.node "table" [.node "orders" []]]])
            token_cosine := cosine_similarity specFrontend
              "SELECT orders.id FROM orders" "SELECT orders.id FROM orders" } :=
  ((evaluate_query_error_contract specFrontend ⟨"q", "SELECT t.id FROM orders t"⟩
      ⟨"q", "SELECT orders.id FROM orders"⟩ (by decide)).2 rfl).2
    (.node "select"
      [.node "column" [.node "id" [], .node "t" []],
       .node "from" [.node "table" [.node "orders" []], .node "alias" [.node "t" []]]])
    (.node "select"
      [.node "column" [.node "id" [], .node "orders" []],
       .node "from" [.node "table" [.node "orders" []]]])
    rfl rfl
    (.node "select"
      [.node "column" [.node "id" [], .node "orders" []],
       .node "from" [.node "table" [.node "orders" []]]])
    (.node "select"
      [.node "column" [.node "id" [], .node "orders" []],
       .node "from" [.node "table" [.node "orders" []]]])
    rfl rfl

/-- C3: for two parseable SQL strings, `ast_distance` returns the edit-script
length divided by the total node count of the two trees, with `0` when that
total is zero instead of failing; `count_nodes` is the length of the full walk,
which visits every node of the tree. -/
theorem ast_distance_formula (F : Frontend) (sql_1 sql_2 : String) (t1 t2 : Expression)
    (h1 : F.parse sql_1 = some t1) (h2 : F.parse sql_2 = some t2) :
    ast_distance F sql_1 sql_2 =
      .ok (if 0 < count_nodes t1 + count_nodes t2
        then ((F.diffTrees t1 t2).length : ℚ) / ((count_nodes t1 + count_nodes t2 : ℕ) : ℚ)
        else 0) ∧
    count_nodes t1 = t1.walk.length ∧ t1.walk.length = t1.size ∧
    count_nodes t2 = t2.walk.length ∧ t2.walk.length = t2.size := by
  refine ⟨?_, rfl, Expression.walk_length t1, rfl, Expression.walk_length t2⟩
  unfold ast_distance
  rw [show parseOne F sql_1 = .ok t1 by simp [parseOne, h1], exceptBind_ok,
    show parseOne F sql_2 = .ok t2 by simp [parseOne, h2], exceptBind_ok]
  rfl

/-- C3 witness: the formula evaluated at two concrete parseable queries. -/
theorem ast_distance_formula_witness :
    ast_distance specFrontend "SELECT a FROM b" "SELECT c.d FROM e" =
      .ok (if 0 < count_nodes
            (.node "select"
              [.node "column" [.node "a" []],
               .node "from" [.node "table" [.node "b" []]]]) + count_nodes
            (.node "select"
              [.node "column" [.node "d" [], .node "c" []],
               .node "from" [.node "table" [.node "e" []]]])
        then ((specFrontend.diffTrees
            (.node "select"
              [.node "column" [.node "a" []],
               .node "from" [.node "table" [.node "b" []]]])
            (.node "select"
              [.node "column" [.node "d" [], .node "c" []],
               .node "from" [.node "table" [.node "e" []]]])).length : ℚ) /
          ((count_nodes
            (.node "select"
              [.node "column" [.node "a" []],
               .node "from" [.node "table" [.node "b" []]]]) + count_nodes
            (.node "select"
              [.node "column" [.node "d" [], .node "c" []],
               .node "from" [.node "table" [.node "e" []]]]) : ℕ) : ℚ)
        else 0) :=
  (ast_distance_formula specFrontend "SELECT a FROM b" "SELECT c.d FROM e"
    (.node "select"
      [.node "column" [.node "a" []],
       .node "from" [.node "table" [.node "b" []]]])
    (.node "select"
      [.node "column" [.node "d" [], .node "c" []],
       .node "from" [.node "table" [.node "e" []]]])
    rfl rfl).1

theorem evaluate_batch_nil_left (F : Frontend) (refs : List RefRecord) :
    evaluate_batch F [] refs = .ok [] := by
  cases refs <;> rfl

theorem evaluate_batch_nil_right (F : Frontend) (g : GenRecord) (gens : List GenRecord) :
    evaluate_batch F (g :: gens) [] = .ok [] := rfl

/-- C6: the batch evaluator pairs the two sequences strictly by positional
index with zip-with-shortest semantics: a successful run yields exactly
`min` of the two lengths many results, and result `i` is the evaluation of
generated record `i` against reference record `i`, in input order. -/
theorem evaluate_batch_zip (F : Frontend) (gens : List GenRecord) (refs : List RefRecord)
    (rs : List EvalResult) (h : evaluate_batch F gens refs = .ok rs) :
    rs.length = min gens.length refs.length ∧
    ∀ i (hg : i < gens.length) (hr : i < refs.length) (hi : i < rs.length),
      evaluate_query F (gens.get ⟨i, hg⟩) (refs.get ⟨i, hr⟩) = .ok (rs.get ⟨i, hi⟩) := by
  induction gens generalizing refs rs with
  | nil =>
    rw [evaluate_batch_nil_left] at h
    injection h with h
    subst h
    exact ⟨by simp, fun i hg hr hi => absurd hg (Nat.not_lt_zero i)⟩
  | cons g gens ih =>
    cases refs with
    | nil =>
      rw [evaluate_batch_nil_right] at h
      injection h with h
      subst h
      exact ⟨by simp, fun i hg hr hi => absurd hr (Nat.not_lt_zero i)⟩
    | cons r refs =>
      unfold evaluate_batch at h
      cases hq : evaluate_query F g r with
      | error e => rw [hq, exceptBind_error] at h; exact Except.noConfusion h
      | ok v =>
        rw [hq, exceptBind_ok] at h
        cases hb : evaluate_batch F gens refs with
        | error e => rw [hb, exceptBind_error] at h; exact Except.noConfusion h
        | ok vs =>
          rw [hb, exceptBind_ok] at h
          have hrs : v :: vs = rs := by injection h
          subst hrs
          obtain ⟨hlen, hidx⟩ := ih refs vs hb
          refine ⟨by simp [hlen, Nat.succ_min_succ], fun i hg hr hi => ?_⟩
          cases i with
          | zero => simpa using hq
          | succ n =>
            exact hidx n (Nat.lt_of_succ_lt_succ hg) (Nat.lt_of_succ_lt_succ hr)
              (Nat.lt_of_succ_lt_succ hi)

/-- C6 witness: five generated records against three reference records
produce exactly three results, in order. -/
theorem evaluate_batch_zip_witness :
    ([(⟨"a", "", "x", 1, 0⟩ : EvalResult), ⟨"b", "", "y", 1, 0⟩,
        ⟨"c", "", "z", 1, 0⟩] : List EvalResult).length =
      min ([(⟨"a", ""⟩ : GenRecord), ⟨"b", ""⟩, ⟨"c", ""⟩, ⟨"d", ""⟩,
        ⟨"e", ""⟩] : List GenRecord).length
        ([(⟨"a", "x"⟩ : RefRecord), ⟨"b", "y"⟩, ⟨"c", "z"⟩] : List RefRecord).length :=
  (evaluate_batch_zip specFrontend
    [⟨"a", ""⟩, ⟨"b", ""⟩, ⟨"c", ""⟩, ⟨"d", ""⟩, ⟨"e", ""⟩]
    [⟨"a", "x"⟩, ⟨"b", "y"⟩, ⟨"c", "z"⟩]
    [⟨"a", "", "x", 1, 0⟩, ⟨"b", "", "y", 1, 0⟩, ⟨"c", "", "z", 1, 0⟩]
    rfl).1

/-- C7: the batch pipeline fails with the no-results error when the result
sequence is empty (in particular on two empty inputs) instead of emitting
means; when results exist, the aggregate is the arithmetic mean of each metric
over all results. -/
theorem run_batch_aggregate (F : Frontend) :
    run_batch F [] [] = .error .noResults ∧
    ∀ gens refs rs, evaluate_batch F gens refs = .ok rs →
      (rs = [] → run_batch F gens refs = .error .noResults) ∧
      (rs ≠ [] → run_batch F gens refs =
        .ok (rs,
          { ast_distance_mean :=
              (rs.map (fun result => result.ast_distance)).sum / (rs.length : ℚ)
            token_cosine_mean :=
              (rs.map (fun result => result.token_cosine)).sum / (rs.length : ℝ) })) := by
  refine ⟨rfl, fun gens refs rs h => ⟨fun hrs => ?_, fun hrs => ?_⟩⟩
  · subst hrs
    unfold run_batch
    rw [h, exceptBind_ok]
    rfl
  · unfold run_batch
    rw [h, exceptBind_ok]
    have hm : compute_metrics rs = .ok
        { ast_distance_mean :=
            (rs.map (fun result => result.ast_distance)).sum / (rs.length : ℚ)
          token_cosine_mean :=
            (rs.map (fun result => result.token_cosine)).sum / (rs.length : ℝ) } := by
      unfold compute_metrics
      rw [if_neg (by simpa using hrs)]
    rw [hm, exceptBind_ok]
    rfl

/-- C7 witness: a concrete three-result batch aggregates to the means of the
per-item metrics. -/
theorem run_batch_aggregate_witness :
    run_batch specFrontend [⟨"a", ""⟩, ⟨"b", ""⟩] [⟨"a", "x"⟩, ⟨"b", "y"⟩] =
      .ok ([⟨"a", "", "x", 1, 0⟩, ⟨"b", "", "y", 1, 0⟩],
        { ast_distance_mean :=
            (([(⟨"a", "", "x", 1, 0⟩ : EvalResult), ⟨"b", "", "y", 1, 0⟩]).map
              (fun result => result.ast_distance)).sum / ((2 : ℕ) : ℚ)
          token_cosine_mean :=
            (([(⟨"a", "", "x", 1, 0⟩ : EvalResult), ⟨"b", "", "y", 1, 0⟩]).map
              (fun result => result.token_cosine)).sum / ((2 : ℕ) : ℝ) }) :=
  ((run_batch_aggregate specFrontend).2 [⟨"a", ""⟩, ⟨"b", ""⟩] [⟨"a", "x"⟩, ⟨"b", "y"⟩]
    [⟨"a", "", "x", 1, 0⟩, ⟨"b", "", "y", 1, 0⟩] rfl).2 (by simp)

theorem count_cast_zero_of_not_mem_toFinset {l : List String} {x : String}
    (hx : x ∉ l.toFinset) : l.count x = 0 :=
  List.count_eq_zero.2 (fun hm => hx (List.mem_toFinset.2 hm))

/-- The dot product over the union of the key sets equals the dot product over
the shared keys: a term vanishes as soon as the key is missing on one side. -/
theorem dot_union_eq_inter (A B : List String) :
    ∑ k ∈ A.toFinset ∪ B.toFinset, (A.count k : ℝ) * (B.count k : ℝ) =
      ∑ k ∈ A.toFinset ∩ B.toFinset, (A.count k : ℝ) * (B.count k : ℝ) :=
  (Finset.sum_subset Finset.inter_subset_union (fun x _ hnx => by
    rcases not_and_or.1 (fun hh => hnx (Finset.mem_inter.2 hh)) with h | h
    · rw [count_cast_zero_of_not_mem_toFinset h]; simp
    · rw [count_cast_zero_of_not_mem_toFinset h]; simp)).symm

/-- The sum of squared counts over any superset of the key set equals the sum
over the key set itself. -/
theorem sq_sum_superset_eq (A : List String) {U : Finset String} (hsub : A.toFinset ⊆ U) :
    ∑ k ∈ U, (A.count k : ℝ) ^ 2 = ∑ k ∈ A.toFinset, (A.count k : ℝ) ^ 2 :=
  (Finset.sum_subset hsub (fun x _ hx => by
    rw [count_cast_zero_of_not_mem_toFinset hx]; simp)).symm

/-- A non-empty token list has a positive sum of squared counts. -/
theorem sq_sum_pos {A : List String} (hA : A ≠ []) :
    0 < ∑ k ∈ A.toFinset, (A.count k : ℝ) ^ 2 := by
  obtain ⟨x, hx⟩ := List.exists_mem_of_ne_nil A hA
  refine Finset.sum_pos' (fun i _ => by positivity) ⟨x, List.mem_toFinset.2 hx, ?_⟩
  have hc : 0 < A.count x := List.count_pos_iff.2 hx
  have hcr : (0 : ℝ) < (A.count x : ℝ) := by exact_mod_cast hc
  positivity

/-- On the non-degenerate branch, `cosine_similarity` is the casted quotient
of the dot product over shared keys by the product of the magnitudes. -/
theorem cosine_similarity_eq {F : Frontend} {sql_a sql_b : String}
    (h1 : (tokenize_sql F sql_a).toFinset.card ≠ 0)
    (h2 : (tokenize_sql F sql_b).toFinset.card ≠ 0) :
    cosine_similarity F sql_a sql_b =
      (∑ k ∈ (tokenize_sql F sql_a).toFinset ∩ (tokenize_sql F sql_b).toFinset,
        ((tokenize_sql F sql_a).count k : ℝ) * ((tokenize_sql F sql_b).count k : ℝ)) /
      (Real.sqrt (∑ k ∈ (tokenize_sql F sql_a).toFinset,
          ((tokenize_sql F sql_a).count k : ℝ) ^ 2) *
       Real.sqrt (∑ k ∈ (tokenize_sql F sql_b).toFinset,
          ((tokenize_sql F sql_b).count k : ℝ) ^ 2)) := by
  simp only [cosine_similarity]
  rw [if_neg (not_or.mpr ⟨h1, h2⟩)]
  push_cast
  rfl

/-- C4: `cosine_similarity` builds per-string multisets of lower-cased token
texts, returns `0` if either multiset is empty, and otherwise returns the dot
product over the union-of-keys vector space (only shared keys contribute)
divided by the product of the magnitudes over each string's own keys. -/
theorem cosine_similarity_formula (F : Frontend) (sql_a sql_b : String) :
    (∀ k, (tokenize_sql F sql_a).count k =
      ((F.tokenize sql_a).map (fun token => lowerString token)).count k) ∧
    ((tokenize_sql F sql_a).toFinset.card = 0 ∨ (tokenize_sql F sql_b).toFinset.card = 0 →
      cosine_similarity F sql_a sql_b = 0) ∧
    ((tokenize_sql F sql_a).toFinset.card ≠ 0 → (tokenize_sql F sql_b).toFinset.card ≠ 0 →
      cosine_similarity F sql_a sql_b =
        (∑ k ∈ (tokenize_sql F sql_a).toFinset ∪ (tokenize_sql F sql_b).toFinset,
          ((tokenize_sql F sql_a).count k : ℝ) * ((tokenize_sql F sql_b).count k : ℝ)) /
        (Real.sqrt (∑ k ∈ (tokenize_sql F sql_a).toFinset,
            ((tokenize_sql F sql_a).count k : ℝ) ^ 2) *
         Real.sqrt (∑ k ∈ (tokenize_sql F sql_b).toFinset,
            ((tokenize_sql F sql_b).count k : ℝ) ^ 2))) := by
  refine ⟨fun k => rfl, fun h => ?_, fun h1 h2 => ?_⟩
  · simp only [cosine_similarity]
    rw [if_pos h]
  · rw [cosine_similarity_eq h1 h2, ← dot_union_eq_inter]

/-- C4 witness: the formula at a concrete pair of queries with non-empty
token multisets. -/
theorem cosine_similarity_formula_witness :
    cosine_similarity specFrontend "SELECT a FROM b" "SELECT a FROM b" =
      (∑ k ∈ (tokenize_sql specFrontend "SELECT a FROM b").toFinset ∪
          (tokenize_sql specFrontend "SELECT a FROM b").toFinset,
        ((tokenize_sql specFrontend "SELECT a FROM b").count k : ℝ) *
          ((tokenize_sql specFrontend "SELECT a FROM b").count k : ℝ)) /
      (Real.sqrt (∑ k ∈ (tokenize_sql specFrontend "SELECT a FROM b").toFinset,
          ((tokenize_sql specFrontend "SELECT a FROM b").count k : ℝ) ^ 2) *
       Real.sqrt (∑ k ∈ (tokenize_sql specFrontend "SELECT a FROM b").toFinset,
          ((tokenize_sql specFrontend "SELECT a FROM b").count k : ℝ) ^ 2)) :=
  (cosine_similarity_formula specFrontend "SELECT a FROM b" "SELECT a FROM b").2.2
    (by decide) (by decide)

/-- C9: for SQL strings whose token multisets are non-empty, the cosine
similarity lies in `[0, 1]`, and a string compared with itself scores
exactly `1`. -/
theorem token_cosine_bounds (F : Frontend) (sql_a sql_b : String)
    (ha : tokenize_sql F sql_a ≠ []) (hb : tokenize_sql F sql_b ≠ []) :
    0 ≤ cosine_similarity F sql_a sql_b ∧ cosine_similarity F sql_a sql_b ≤ 1 ∧
      cosine_similarity F sql_a sql_a = 1 := by
  have hca : (tokenize_sql F sql_a).toFinset.card ≠ 0 := by
    simp [Finset.card_eq_zero, List.toFinset_eq_empty_iff, ha]
  have hcb : (tokenize_sql F sql_b).toFinset.card ≠ 0 := by
    simp [Finset.card_eq_zero, List.toFinset_eq_empty_iff, hb]
  have hSa := sq_sum_pos ha
  have hSb := sq_sum_pos hb
  have hma : 0 < Real.sqrt (∑ k ∈ (tokenize_sql F sql_a).toFinset,
      ((tokenize_sql F sql_a).count k : ℝ) ^ 2) := Real.sqrt_pos.2 hSa
  have hmb : 0 < Real.sqrt (∑ k ∈ (tokenize_sql F sql_b).toFinset,
      ((tokenize_sql F sql_b).count k : ℝ) ^ 2) := Real.sqrt_pos.2 hSb
  refine ⟨?_, ?_, ?_⟩
  · rw [cosine_similarity_eq hca hcb, ← dot_union_eq_inter]
    exact div_nonneg (Finset.sum_nonneg fun k _ => by positivity)
      (mul_nonneg (Real.sqrt_nonneg _) (Real.sqrt_nonneg _))
  · rw [cosine_similarity_eq hca hcb, ← dot_union_eq_inter,
      div_le_one (mul_pos hma hmb)]
    calc
      ∑ k ∈ (tokenize_sql F sql_a).toFinset ∪ (tokenize_sql F sql_b).toFinset,
          ((tokenize_sql F sql_a).count k : ℝ) * ((tokenize_sql F sql_b).count k : ℝ) ≤
        Real.sqrt (∑ k ∈ (tokenize_sql F sql_a).toFinset ∪ (tokenize_sql F sql_b).toFinset,
            ((tokenize_sql F sql_a).count k : ℝ) ^ 2) *
        Real.sqrt (∑ k ∈ (tokenize_sql F sql_a).toFinset ∪ (tokenize_sql F sql_b).toFinset,
            ((tokenize_sql F sql_b).count k : ℝ) ^ 2) :=
        Real.sum_mul_le_sqrt_mul_sqrt _ _ _
      _ = Real.sqrt (∑ k ∈ (tokenize_sql F sql_a).toFinset,
            ((tokenize_sql F sql_a).count k : ℝ) ^ 2) *
          Real.sqrt (∑ k ∈ (tokenize_sql F sql_b).toFinset,
            ((tokenize_sql F sql_b).count k : ℝ) ^ 2) := by
        rw [sq_sum_superset_eq _ Finset.subset_union_left,
          sq_sum_superset_eq _ Finset.subset_union_right]
  · rw [cosine_similarity_eq hca hca, Finset.inter_self]
    have hsq : ∑ k ∈ (tokenize_sql F sql_a).toFinset,
        ((tokenize_sql F sql_a).count k : ℝ) * ((tokenize_sql F sql_a).count k : ℝ) =
        ∑ k ∈ (tokenize_sql F sql_a).toFinset,
          ((tokenize_sql F sql_a).count k : ℝ) ^ 2 := by
      refine Finset.sum_congr rfl fun k _ => ?_
      rw [sq]
    rw [hsq, Real.mul_self_sqrt (le_of_lt hSa)]
    exact div_self (ne_of_gt hSa)

/-- C9 witness: the bounds at concrete non-empty queries. -/
theorem token_cosine_bounds_witness :
    0 ≤ cosine_similarity specFrontend "SELECT a FROM b" "SELECT c FROM d" ∧
    cosine_similarity specFrontend "SELECT a FROM b" "SELECT c FROM d" ≤ 1 ∧
    cosine_similarity specFrontend "SELECT a FROM b" "SELECT a FROM b" = 1 :=
  token_cosine_bounds specFrontend "SELECT a FROM b" "SELECT c FROM d"
    (by decide) (by decide)
